import Mathlib

/-
Verification of the server group resource handler
(src/openstack/resource_openstack_compute_servergroup_v2.go).

The Go source is shallowly embedded: the three lifecycle handlers
(create, read, delete) become pure Lean functions that take the remote
API as an oracle and return the list of remote calls they issued
together with their outcome.  Helper functions of the repository that
are not part of the given fragment (CheckDeleted, GetRegion,
MapValueSpecs, expandComputeServerGroupV2Policies) are modelled from
the specification, as marked on each definition.  The failing type
assertion on the rules value at source line 120 is modelled as a
runtime panic of the create handler.
-/

namespace ServerGroupV2

/-- Rules of a server group: the gophercloud servergroups.Rules struct,
holding the host-occupancy maximum (Go int, modelled as Int). -/
structure Rules where
  maxServerPerHost : Int
deriving Repr, DecidableEq

/-- The gophercloud servergroups.CreateOpts struct: name, legacy policies
list, modern single policy string, optional rules pointer. -/
structure CreateOpts where
  name : String
  policies : List String
  policy : String
  rules : Option Rules
deriving Repr, DecidableEq

/-- ComputeServerGroupV2CreateOpts: the repository wrapper adding the
value_specs passthrough map to the gophercloud CreateOpts. -/
structure ComputeServerGroupV2CreateOpts where
  createOpts : CreateOpts
  valueSpecs : List (String × String)
deriving Repr, DecidableEq

/-- The gophercloud servergroups.ServerGroup result struct: id, name,
legacy policies list, optional modern policy pointer, optional rules
pointer, member instance ids. -/
structure ServerGroup where
  id : String
  name : String
  policies : List String
  policy : Option String
  rules : Option Rules
  members : List String
deriving Repr, DecidableEq

/-- One entry of the rules block in the configuration: the
max_server_per_host key, absent when not set in the raw map. -/
structure RulesConfig where
  maxServerPerHost : Option Int
deriving Repr, DecidableEq

/-- The configuration snapshot handed to a handler by the host
(schema.ResourceData): tracked id plus the schema fields. -/
structure ResourceData where
  id : String
  region : Option String
  name : String
  policies : List String
  policy : String
  rules : List RulesConfig
  valueSpecs : List (String × String)
deriving Repr, DecidableEq

/-- The provider Config: the process-wide default region. -/
structure Config where
  region : String
deriving Repr, DecidableEq

/-- An error returned by a remote call: either the 404 not-found
condition or any other error with its message. -/
inductive RemoteError where
  | notFound
  | other (msg : String)
deriving Repr, DecidableEq

/-- Render a remote error as the message text interpolated into diag
messages. -/
def RemoteError.message : RemoteError → String
  | .notFound => "Resource not found"
  | .other m => m

/-- A remote call issued by a handler, recording the microversion the
client carried at the moment of the call (none when never set). -/
inductive RemoteCall where
  | create (mv : Option String) (opts : ComputeServerGroupV2CreateOpts)
  | get (mv : Option String) (id : String)
  | delete (mv : Option String) (id : String)
deriving Repr, DecidableEq

/-- The remote API as an oracle: responses to the three calls, plus the
possible failure of compute client initialization. -/
structure Remote where
  clientErr : Option String
  createResp : Option String → ComputeServerGroupV2CreateOpts → Except RemoteError ServerGroup
  getResp : Option String → String → Except RemoteError ServerGroup
  deleteResp : String → Except RemoteError Unit

/-- A value written into an output field by d.Set: a string, a list of
strings, or a rules block (list of one max_server_per_host map). -/
inductive Value where
  | str (s : String)
  | strList (l : List String)
  | rulesList (l : List Rules)
deriving Repr, DecidableEq

/-- One d.Set call: target field name and written value. -/
structure SetCall where
  field : String
  value : Value
deriving Repr, DecidableEq

/-- Outcome of the read handler: resource reported removed (id cleared,
no error), success with the list of d.Set calls in order, or a fatal
diagnostic. -/
inductive ReadOutcome where
  | removed
  | ok (sets : List SetCall)
  | fatal (msg : String)
deriving Repr, DecidableEq

/-- A diagnostic raised by the create handler, one constructor per
diag.Errorf site of the source; message recovers the format string. -/
inductive CreateDiag where
  | clientError (msg : String)
  | conflictPoliciesPolicy
  | conflictPoliciesRules
  | remoteCreateError (name : String) (msg : String)
deriving Repr, DecidableEq

/-- Outcome of the create handler: a fatal diagnostic, a runtime crash
of the handler itself, or the stored new id together with the outcome
of the read-back it ends with. -/
inductive CreateOutcome where
  | fatal (d : CreateDiag)
  | panicked
  | created (id : String) (read : ReadOutcome)
deriving Repr, DecidableEq

/-- Result of the option-building phase of the create handler: a
diagnostic, a runtime panic (the Go type assertion on the rules value
at source line 120 fails on every SDK list value), or the client
microversion in effect together with the built options. -/
inductive BuildResult where
  | diag (d : CreateDiag)
  | panic
  | ok (mv : Option String) (opts : ComputeServerGroupV2CreateOpts)
deriving Repr, DecidableEq

/-- Outcome of the delete handler. -/
inductive DeleteOutcome where
  | success
  | fatal (msg : String)
deriving Repr, DecidableEq

/-- Modelled from the spec: GetRegion (repository helper outside this
fragment) returns the region of the configuration when set and the
process-wide configured region otherwise. -/
def GetRegion (d : ResourceData) (config : Config) : String :=
  d.region.getD config.region

/-- Modelled from the spec: MapValueSpecs (repository helper outside
this fragment) reads the free-form provider-specific key/value
passthrough map from the configuration. -/
def MapValueSpecs (d : ResourceData) : List (String × String) :=
  d.valueSpecs

/-- Modelled from the spec: expandComputeServerGroupV2Policies
(repository helper outside this fragment) converts the raw legacy
policies list of the configuration into the list of policy strings; per
the spec the legacy shape requests no specific protocol version, so the
client is left untouched. -/
def expandComputeServerGroupV2Policies (raw : List String) : List String :=
  raw

/-- Modelled from the spec: CheckDeleted (repository helper outside this
fragment) absorbs a not-found remote error as the normal
already-deleted condition (returning no error, the caller clears the
tracked id) and annotates any other error with the given context
message. -/
def CheckDeleted (err : RemoteError) (msg : String) : Option String :=
  match err with
  | .notFound => none
  | .other e => some (msg ++ ": " ++ e)

/-- The diag.Errorf message text of each create diagnostic, as in the
source. -/
def CreateDiag.message : CreateDiag → String
  | .clientError m => "Error creating OpenStack compute client: " ++ m
  | .conflictPoliciesPolicy =>
    "Cannot create with both \"policies\" and \"policy\" field specified"
  | .conflictPoliciesRules =>
    "Cannot use \"policies\" field with \"rules\" - omit the \"rules\" or use \"policy\" instead"
  | .remoteCreateError n m =>
    "Error creating openstack_compute_servergroup_v2 " ++ n ++ ": " ++ m

/-- Classifies a create outcome as a ConfigurationConflict error of the
spec: one of the two mutually-exclusive-input diagnostics. -/
def isConfigurationConflict : CreateOutcome → Bool
  | .fatal .conflictPoliciesPolicy => true
  | .fatal .conflictPoliciesRules => true
  | _ => false

/-- resourceComputeServerGroupV2Read: a fresh compute client (no
microversion set) issues one get for the tracked id; a not-found error
reports the resource removed via CheckDeleted, another error is fatal;
on success the entity fields are written with d.Set in source order. -/
def resourceComputeServerGroupV2Read (remote : Remote) (config : Config)
    (d : ResourceData) : List RemoteCall × ReadOutcome :=
  match remote.clientErr with
  | some e => ([], .fatal ("Error creating OpenStack compute client: " ++ e))
  | none =>
    match remote.getResp none d.id with
    | .error err =>
      ([.get none d.id],
        match CheckDeleted err "Error retrieving openstack_compute_servergroup_v2" with
        | none => .removed
        | some m => .fatal m)
    | .ok sg =>
      ([.get none d.id],
        .ok ([⟨"name", .str sg.name⟩]
          ++ (if sg.policies.length > 0 then [⟨"policy", .strList sg.policies⟩] else [])
          ++ [⟨"members", .strList sg.members⟩]
          ++ [⟨"region", .str (GetRegion d config)⟩]
          ++ (match sg.policy with
              | some p => [⟨"policy", .str p⟩]
              | none => [])
          ++ (match sg.rules with
              | some r => [⟨"rules", .rulesList [r]⟩]
              | none => [])))

/-- The option-building phase of the create handler (source lines
90-146): validates the mutually exclusive policy shapes and returns the
client microversion in effect (none when never set, some "2.64" after
the modern-shape pin) together with the create options.  The
anti-affinity-with-rules branch (source lines 119-136) first asserts
the rules value to a list of maps, but the SDK materializes every list
value with a different dynamic type, so that assertion fails at runtime
every time the branch is reached: the branch is a guaranteed panic and
its rules extraction is dead code. -/
def buildCreateOpts (d : ResourceData) : BuildResult :=
  let name := d.name
  let policies := expandComputeServerGroupV2Policies d.policies
  let policy := d.policy
  let rulesSet := !d.rules.isEmpty
  if policies.length > 0 then
    if policy ≠ "" then
      .diag .conflictPoliciesPolicy
    else if rulesSet then
      .diag .conflictPoliciesRules
    else
      .ok none ⟨⟨name, policies, "", none⟩, MapValueSpecs d⟩
  else
    -- modern shape: the client microversion is pinned to "2.64"
    if policy = "anti-affinity" ∧ rulesSet then
      -- source line 120: the failing type assertion on the rules value
      .panic
    else
      .ok (some "2.64") ⟨⟨name, [], policy, none⟩, MapValueSpecs d⟩

/-- The remote-call phase of the create handler (source lines 148-156):
issues the single remote create; on error returns the annotated fatal
diagnostic, on success stores the returned id and runs the read-back. -/
def doRemoteCreate (remote : Remote) (config : Config) (d : ResourceData)
    (mv : Option String) (createOpts : ComputeServerGroupV2CreateOpts) :
    List RemoteCall × CreateOutcome :=
  match remote.createResp mv createOpts with
  | .error err =>
    ([.create mv createOpts], .fatal (.remoteCreateError d.name err.message))
  | .ok sg =>
    let rd := resourceComputeServerGroupV2Read remote config { d with id := sg.id }
    (.create mv createOpts :: rd.1, .created sg.id rd.2)

/-- resourceComputeServerGroupV2Create: initializes the compute client,
builds the create options (pinning microversion 2.64 for the modern
shape, leaving the client untouched for the legacy shape), issues the
remote create and on success stores the id and runs the read-back. -/
def resourceComputeServerGroupV2Create (remote : Remote) (config : Config)
    (d : ResourceData) : List RemoteCall × CreateOutcome :=
  match remote.clientErr with
  | some e => ([], .fatal (.clientError e))
  | none =>
    match buildCreateOpts d with
    | .diag dg => ([], .fatal dg)
    | .panic => ([], .panicked)
    | .ok mv createOpts => doRemoteCreate remote config d mv createOpts

/-- resourceComputeServerGroupV2Delete: a fresh compute client issues one
delete for the tracked id; a not-found error is absorbed by CheckDeleted
as successful deletion, another error is fatal. -/
def resourceComputeServerGroupV2Delete (remote : Remote) (config : Config)
    (d : ResourceData) : List RemoteCall × DeleteOutcome :=
  match remote.clientErr with
  | some e => ([], .fatal ("Error creating OpenStack compute client: " ++ e))
  | none =>
    match remote.deleteResp d.id with
    | .ok _ => ([.delete none d.id], .success)
    | .error err =>
      ([.delete none d.id],
        match CheckDeleted err "Error deleting openstack_compute_servergroup_v2" with
        | none => .success
        | some m => .fatal m)

/-- The IntAtLeast validator of the SDK schema helper: accepts an
integer not below the given minimum. -/
def IntAtLeast (min v : Int) : Bool :=
  min ≤ v

/-- Schema validation of the configuration as declared by
resourceComputeServerGroupV2: every rules entry with a
max_server_per_host value must pass IntAtLeast 1. -/
def validateResourceData (d : ResourceData) : Bool :=
  d.rules.all fun r =>
    match r.maxServerPerHost with
    | some v => IntAtLeast 1 v
    | none => true

/-- Modelled from the spec: the orchestration host applies schema
validation to the configuration before invoking the create handler; an
invalid configuration is rejected (outcome none) with no remote call
issued. -/
def applyCreate (remote : Remote) (config : Config) (d : ResourceData) :
    List RemoteCall × Option CreateOutcome :=
  if validateResourceData d then
    let r := resourceComputeServerGroupV2Create remote config d
    (r.1, some r.2)
  else
    ([], none)

/-- The last value written to a field by a list of d.Set calls, the
final state of that output field. -/
def finalField (sets : List SetCall) (f : String) : Option Value :=
  (sets.reverse.find? fun s => s.field = f).map SetCall.value

/-- Field projection through a read outcome: the final value of an
output field when the read succeeded, none otherwise. -/
def readField : ReadOutcome → String → Option Value
  | .ok sets, f => finalField sets f
  | .removed, _ => none
  | .fatal _, _ => none

/-- Field projection through a create outcome: the final value of an
output field written by the read-back the create ends with. -/
def createReadField : CreateOutcome → String → Option Value
  | .created _ rd, f => readField rd f
  | .fatal _, _ => none
  | .panicked, _ => none

/-- The d.Set calls of a read outcome (empty unless the read succeeded). -/
def readOutcomeSets : ReadOutcome → List SetCall
  | .ok sets => sets
  | .removed => []
  | .fatal _ => []

/-- Concrete default config used by witnesses. -/
def configW : Config := ⟨"RegionOne"⟩

/-- Concrete server group used by witnesses: the entity stored by a
modern-shape anti-affinity create of name g1 with max 2 per host. -/
def sgRoundtrip : ServerGroup :=
  ⟨"sg-1", "g1", [], some "anti-affinity", some ⟨2⟩, []⟩

/-- Concrete remote used by witnesses: the create returns sgRoundtrip
and a get of its id returns it back. -/
def remoteRoundtrip : Remote :=
  ⟨none,
    fun _ _ => .ok sgRoundtrip,
    fun _ i => if i = "sg-1" then .ok sgRoundtrip else .error .notFound,
    fun _ => .ok ()⟩

/-- Concrete remote used by witnesses: every call reports not found. -/
def remoteAllNotFound : Remote :=
  ⟨none,
    fun _ _ => .error .notFound,
    fun _ _ => .error .notFound,
    fun _ => .error .notFound⟩

/-- Concrete remote used by witnesses: every call fails with an error
other than not-found. -/
def remoteOtherErr : Remote :=
  ⟨none,
    fun _ _ => .error (.other "boom"),
    fun _ _ => .error (.other "boom"),
    fun _ => .error (.other "boom")⟩

/-- Concrete create input of the round-trip claim: modern shape, name
g1, policy anti-affinity, one rules entry with max_server_per_host 2
(the input on which the create handler panics). -/
def dRoundtrip : ResourceData :=
  ⟨"", none, "g1", [], "anti-affinity", [⟨some 2⟩], []⟩

/-- Concrete create input with both legacy policies and modern policy. -/
def dLegacyBoth : ResourceData :=
  ⟨"", none, "g1", ["affinity"], "affinity", [], []⟩

/-- Concrete create input with legacy policies together with rules. -/
def dLegacyRules : ResourceData :=
  ⟨"", none, "g1", ["affinity"], "", [⟨some 2⟩], []⟩

/-- Concrete create input: modern shape, policy other than
anti-affinity, with a rules entry. -/
def dModernOther : ResourceData :=
  ⟨"", none, "g1", [], "affinity", [⟨some 3⟩], []⟩

/-- Concrete configuration whose rules entry has max_server_per_host 0. -/
def dBadRules : ResourceData :=
  ⟨"", none, "g1", [], "anti-affinity", [⟨some 0⟩], []⟩

/-- Concrete stored state tracking the id sg-1. -/
def dStored : ResourceData :=
  ⟨"sg-1", none, "g1", [], "", [], []⟩

/-- Concrete remote entity carrying a non-empty legacy policies list. -/
def sgLegacy : ServerGroup :=
  ⟨"sg-1", "g1", ["affinity", "anti-affinity"], none, none, ["m1"]⟩

/-- Concrete remote whose get returns the legacy-policies entity. -/
def remoteLegacyGet : Remote :=
  ⟨none,
    fun _ _ => .error .notFound,
    fun _ _ => .ok sgLegacy,
    fun _ => .ok ()⟩

/-- Helper: the two conflict equations of buildCreateOpts, legacy list
together with the modern policy field. -/
theorem buildCreateOpts_conflict_policy (d : ResourceData)
    (hp : d.policies ≠ []) (hq : d.policy ≠ "") :
    buildCreateOpts d = .diag .conflictPoliciesPolicy := by
  unfold buildCreateOpts
  simp [expandComputeServerGroupV2Policies, List.length_pos.mpr hp, hq]

/-- Helper: the conflict equation of buildCreateOpts, legacy list
together with rules, no modern policy. -/
theorem buildCreateOpts_conflict_rules (d : ResourceData)
    (hp : d.policies ≠ []) (hq : d.policy = "") (hr : d.rules ≠ []) :
    buildCreateOpts d = .diag .conflictPoliciesRules := by
  unfold buildCreateOpts
  simp [expandComputeServerGroupV2Policies, List.length_pos.mpr hp, hq, hr]

/-- Helper: when building the options fails, the create handler returns
that diagnostic and issues no remote call. -/
theorem create_of_buildCreateOpts_error (remote : Remote) (config : Config)
    (d : ResourceData) (dg : CreateDiag) (hc : remote.clientErr = none)
    (hb : buildCreateOpts d = .diag dg) :
    resourceComputeServerGroupV2Create remote config d = ([], .fatal dg) := by
  unfold resourceComputeServerGroupV2Create
  rw [hc, hb]

/-- Helper: when the options build panics, the create handler crashes
with no remote call issued. -/
theorem create_of_buildCreateOpts_panic (remote : Remote) (config : Config)
    (d : ResourceData) (hc : remote.clientErr = none)
    (hb : buildCreateOpts d = .panic) :
    resourceComputeServerGroupV2Create remote config d = ([], .panicked) := by
  unfold resourceComputeServerGroupV2Create
  rw [hc, hb]

/-- C3: both the legacy policies list and the modern policy field set
makes create fail with the ConfigurationConflict diagnostic, with no
remote call issued. -/
theorem create_conflict_policies_policy (remote : Remote) (config : Config)
    (d : ResourceData) (hc : remote.clientErr = none)
    (hp : d.policies ≠ []) (hq : d.policy ≠ "") :
    resourceComputeServerGroupV2Create remote config d
        = ([], .fatal .conflictPoliciesPolicy)
      ∧ isConfigurationConflict
          (resourceComputeServerGroupV2Create remote config d).2 = true := by
  have h := create_of_buildCreateOpts_error remote config d _ hc
    (buildCreateOpts_conflict_policy d hp hq)
  exact ⟨h, by rw [h]; rfl⟩

/-- Witness for C3 at a concrete conflicting input. -/
theorem create_conflict_policies_policy_witness :
    resourceComputeServerGroupV2Create remoteRoundtrip configW dLegacyBoth
        = ([], .fatal .conflictPoliciesPolicy)
      ∧ isConfigurationConflict
          (resourceComputeServerGroupV2Create remoteRoundtrip configW dLegacyBoth).2
          = true :=
  create_conflict_policies_policy remoteRoundtrip configW dLegacyBoth rfl
    (by decide) (by decide)

/-- C4: the legacy policies list together with the rules block makes
create fail with a ConfigurationConflict diagnostic, with no remote
call issued. -/
theorem create_conflict_rules_set (remote : Remote) (config : Config)
    (d : ResourceData) (hc : remote.clientErr = none)
    (hp : d.policies ≠ []) (hr : d.rules ≠ []) :
    (resourceComputeServerGroupV2Create remote config d).1 = []
      ∧ isConfigurationConflict
          (resourceComputeServerGroupV2Create remote config d).2 = true := by
  by_cases hq : d.policy = ""
  · have h := create_of_buildCreateOpts_error remote config d _ hc
      (buildCreateOpts_conflict_rules d hp hq hr)
    exact ⟨by rw [h], by rw [h]; rfl⟩
  · have h := create_of_buildCreateOpts_error remote config d _ hc
      (buildCreateOpts_conflict_policy d hp hq)
    exact ⟨by rw [h], by rw [h]; rfl⟩

/-- Witness for C4 at a concrete conflicting input. -/
theorem create_conflict_rules_set_witness :
    (resourceComputeServerGroupV2Create remoteRoundtrip configW dLegacyRules).1 = []
      ∧ isConfigurationConflict
          (resourceComputeServerGroupV2Create remoteRoundtrip configW dLegacyRules).2
          = true :=
  create_conflict_rules_set remoteRoundtrip configW dLegacyRules rfl
    (by decide) (by decide)

/-- Helper: the trace of the read handler is empty or the single
unpinned get of the tracked id. -/
theorem read_trace_eq (remote : Remote) (config : Config) (d : ResourceData) :
    (resourceComputeServerGroupV2Read remote config d).1 = []
      ∨ (resourceComputeServerGroupV2Read remote config d).1
          = [RemoteCall.get none d.id] := by
  unfold resourceComputeServerGroupV2Read
  cases remote.clientErr with
  | some e => exact Or.inl rfl
  | none =>
    cases remote.getResp none d.id with
    | error err => exact Or.inr rfl
    | ok sg => exact Or.inr rfl

/-- Helper: the read handler issues no create call. -/
theorem create_not_mem_read_trace (remote : Remote) (config : Config)
    (d : ResourceData) (mv : Option String) (opts : ComputeServerGroupV2CreateOpts) :
    RemoteCall.create mv opts ∉ (resourceComputeServerGroupV2Read remote config d).1 := by
  rcases read_trace_eq remote config d with h | h <;> rw [h] <;> simp

/-- Helper: when the options build succeeds, the create handler reduces
to the remote-call phase on the built pair. -/
theorem create_eq_doRemoteCreate (remote : Remote) (config : Config)
    (d : ResourceData) (mv : Option String) (opts : ComputeServerGroupV2CreateOpts)
    (hc : remote.clientErr = none) (hb : buildCreateOpts d = .ok mv opts) :
    resourceComputeServerGroupV2Create remote config d
      = doRemoteCreate remote config d mv opts := by
  unfold resourceComputeServerGroupV2Create
  rw [hc, hb]

/-- Helper: the microversion of a successfully built create option pair
is the 2.64 pin exactly when the legacy policies list is empty. -/
theorem buildCreateOpts_microversion (d : ResourceData) (mv : Option String)
    (opts : ComputeServerGroupV2CreateOpts)
    (h : buildCreateOpts d = .ok mv opts) :
    mv = if d.policies = [] then some "2.64" else none := by
  unfold buildCreateOpts at h
  simp only [expandComputeServerGroupV2Policies] at h
  cases hpol : d.policies with
  | nil =>
    rw [if_pos rfl]
    rw [hpol] at h
    simp only [List.length_nil] at h
    rw [if_neg (by omega)] at h
    split at h
    · exact absurd h (by simp)
    · simp only [BuildResult.ok.injEq] at h
      exact h.1.symm
  | cons a as =>
    rw [if_neg (by simp)]
    rw [hpol] at h
    simp only [List.length_cons] at h
    rw [if_pos (by omega)] at h
    split at h
    · exact absurd h (by simp)
    · split at h
      · exact absurd h (by simp)
      · simp only [BuildResult.ok.injEq] at h
        exact h.1.symm

/-- C5: every remote create call issued by the create handler carries
the client microversion pinned to 2.64 when the legacy policies list is
empty (modern shape) and carries no microversion when the legacy list
is non-empty. -/
theorem create_call_pins_microversion (remote : Remote) (config : Config)
    (d : ResourceData) (mv : Option String) (opts : ComputeServerGroupV2CreateOpts)
    (h : RemoteCall.create mv opts
      ∈ (resourceComputeServerGroupV2Create remote config d).1) :
    mv = if d.policies = [] then some "2.64" else none := by
  cases hc : remote.clientErr with
  | some e =>
    unfold resourceComputeServerGroupV2Create at h
    rw [hc] at h; simp at h
  | none =>
    cases hb : buildCreateOpts d with
    | diag dg =>
      rw [create_of_buildCreateOpts_error remote config d dg hc hb] at h
      simp at h
    | panic =>
      rw [create_of_buildCreateOpts_panic remote config d hc hb] at h
      simp at h
    | ok mv' opts' =>
      rw [create_eq_doRemoteCreate remote config d mv' opts' hc hb] at h
      unfold doRemoteCreate at h
      cases hcr : remote.createResp mv' opts' with
      | error err =>
        rw [hcr] at h
        simp only [List.mem_singleton, RemoteCall.create.injEq] at h
        exact h.1 ▸ buildCreateOpts_microversion d mv' opts' hb
      | ok sg =>
        rw [hcr] at h
        simp only [List.mem_cons, RemoteCall.create.injEq] at h
        rcases h with ⟨h1, _⟩ | h2
        · exact h1 ▸ buildCreateOpts_microversion d mv' opts' hb
        · exact absurd h2 (create_not_mem_read_trace remote config
            { d with id := sg.id } mv opts)

/-- Witness for C5: a modern-shape input issues its create call with the
2.64 pin. -/
theorem create_call_pins_microversion_witness :
    RemoteCall.create (some "2.64") ⟨⟨"g1", [], "affinity", none⟩, []⟩
        ∈ (resourceComputeServerGroupV2Create remoteRoundtrip configW dModernOther).1
      ∧ (some "2.64" : Option String)
          = if dModernOther.policies = [] then some "2.64" else none :=
  ⟨by decide,
    create_call_pins_microversion remoteRoundtrip configW dModernOther
      (some "2.64") ⟨⟨"g1", [], "affinity", none⟩, []⟩ (by decide)⟩

/-- C9: a modern-shape input whose policy is not anti-affinity but whose
rules block is set raises no conflict and issues its remote create with
the rules omitted from the options. -/
theorem create_modern_rules_omitted (remote : Remote) (config : Config)
    (d : ResourceData) (hc : remote.clientErr = none) (hp : d.policies = [])
    (hq : d.policy ≠ "anti-affinity") (hr : d.rules ≠ []) :
    (resourceComputeServerGroupV2Create remote config d).1.head?
        = some (.create (some "2.64") ⟨⟨d.name, [], d.policy, none⟩, MapValueSpecs d⟩)
      ∧ isConfigurationConflict
          (resourceComputeServerGroupV2Create remote config d).2 = false := by
  have hb : buildCreateOpts d
      = .ok (some "2.64") ⟨⟨d.name, [], d.policy, none⟩, MapValueSpecs d⟩ := by
    unfold buildCreateOpts
    simp [expandComputeServerGroupV2Policies, hp, hq]
  rw [create_eq_doRemoteCreate remote config d _ _ hc hb]
  unfold doRemoteCreate
  cases hcr : remote.createResp (some "2.64")
      ⟨⟨d.name, [], d.policy, none⟩, MapValueSpecs d⟩ with
  | error err => exact ⟨rfl, rfl⟩
  | ok sg => exact ⟨rfl, rfl⟩

/-- Witness for C9 at a concrete modern-shape input with policy
affinity and a rules entry. -/
theorem create_modern_rules_omitted_witness :
    (resourceComputeServerGroupV2Create remoteRoundtrip configW dModernOther).1.head?
        = some (.create (some "2.64")
            ⟨⟨dModernOther.name, [], dModernOther.policy, none⟩,
              MapValueSpecs dModernOther⟩)
      ∧ isConfigurationConflict
          (resourceComputeServerGroupV2Create remoteRoundtrip configW dModernOther).2
          = false :=
  create_modern_rules_omitted remoteRoundtrip configW dModernOther rfl rfl
    (by decide) (by decide)

/-- C6: the delete handler turns a not-found remote delete error into
success (idempotent deletion) and any other remote delete error into
the annotated fatal diagnostic. -/
theorem delete_not_found_idempotent (remote : Remote) (config : Config)
    (d : ResourceData) (hc : remote.clientErr = none) (err : RemoteError)
    (hd : remote.deleteResp d.id = .error err) :
    (err = .notFound →
        (resourceComputeServerGroupV2Delete remote config d).2 = .success)
      ∧ ∀ m, err = .other m →
          (resourceComputeServerGroupV2Delete remote config d).2
            = .fatal ("Error deleting openstack_compute_servergroup_v2" ++ ": " ++ m) := by
  unfold resourceComputeServerGroupV2Delete
  rw [hc, hd]
  constructor
  · intro h
    subst h
    rfl
  · intro m h
    subst h
    rfl

/-- Witness for C6: deleting an identity the remote reports as not found
succeeds. -/
theorem delete_not_found_idempotent_witness :
    (resourceComputeServerGroupV2Delete remoteAllNotFound configW dStored).2
      = DeleteOutcome.success :=
  (delete_not_found_idempotent remoteAllNotFound configW dStored rfl
    .notFound rfl).1 rfl

/-- C7: the read handler turns a not-found remote get error into the
removed outcome (tracked state cleared, no error) and any other remote
get error into the annotated fatal diagnostic. -/
theorem read_not_found_removed (remote : Remote) (config : Config)
    (d : ResourceData) (hc : remote.clientErr = none) (err : RemoteError)
    (hg : remote.getResp none d.id = .error err) :
    (err = .notFound →
        (resourceComputeServerGroupV2Read remote config d).2 = .removed)
      ∧ ∀ m, err = .other m →
          (resourceComputeServerGroupV2Read remote config d).2
            = .fatal ("Error retrieving openstack_compute_servergroup_v2" ++ ": " ++ m) := by
  unfold resourceComputeServerGroupV2Read
  rw [hc, hg]
  constructor
  · intro h
    subst h
    rfl
  · intro m h
    subst h
    rfl

/-- Witness for C7: reading an identity the remote reports as not found
yields the removed outcome. -/
theorem read_not_found_removed_witness :
    (resourceComputeServerGroupV2Read remoteAllNotFound configW dStored).2
      = ReadOutcome.removed :=
  (read_not_found_removed remoteAllNotFound configW dStored rfl
    .notFound rfl).1 rfl

/-- C8: a configuration whose rules entry carries a max_server_per_host
below 1 is rejected by schema validation, with no remote call issued
and the create handler never invoked. -/
theorem schema_rejects_low_max (remote : Remote) (config : Config)
    (d : ResourceData) (r : RulesConfig) (v : Int)
    (hr : r ∈ d.rules) (hv : r.maxServerPerHost = some v) (hlt : v < 1) :
    applyCreate remote config d = ([], none) := by
  have hval : ¬ (validateResourceData d = true) := by
    unfold validateResourceData
    intro hall
    have h2 := List.all_eq_true.mp hall r hr
    rw [hv] at h2
    simp only [IntAtLeast, decide_eq_true_eq] at h2
    omega
  unfold applyCreate
  rw [if_neg hval]

/-- Witness for C8 at a concrete configuration with max_server_per_host
zero. -/
theorem schema_rejects_low_max_witness :
    applyCreate remoteRoundtrip configW dBadRules = ([], none) :=
  schema_rejects_low_max remoteRoundtrip configW dBadRules ⟨some 0⟩ 0
    (by decide) rfl (by decide)

/-- Counterexample for C2: at a concrete stored identity the read
handler issues its get call with no microversion on the client, not the
2.64 pin the claim requires. -/
theorem read_get_pinned_counterexample :
    (resourceComputeServerGroupV2Read remoteRoundtrip configW dStored).1
      ≠ [RemoteCall.get (some "2.64") dStored.id] := by
  decide

/-- C2 amended: the read handler issues its single remote get with no
protocol microversion set on the client (the 2.64 pin of the modern
create shape is absent here), and maps the returned entity name,
policy, rules, member list and region into the output fields. -/
theorem read_unpinned_maps_fields (remote : Remote) (config : Config)
    (d : ResourceData) (sg : ServerGroup) (hc : remote.clientErr = none)
    (hg : remote.getResp none d.id = .ok sg) :
    (resourceComputeServerGroupV2Read remote config d).1 = [RemoteCall.get none d.id]
      ∧ readField (resourceComputeServerGroupV2Read remote config d).2 "name"
          = some (.str sg.name)
      ∧ readField (resourceComputeServerGroupV2Read remote config d).2 "members"
          = some (.strList sg.members)
      ∧ readField (resourceComputeServerGroupV2Read remote config d).2 "region"
          = some (.str (GetRegion d config))
      ∧ (∀ p, sg.policy = some p →
          readField (resourceComputeServerGroupV2Read remote config d).2 "policy"
            = some (.str p))
      ∧ (∀ r, sg.rules = some r →
          readField (resourceComputeServerGroupV2Read remote config d).2 "rules"
            = some (.rulesList [r])) := by
  unfold resourceComputeServerGroupV2Read
  rw [hc, hg]
  obtain ⟨sid, sname, spols, spol, srules, smem⟩ := sg
  refine ⟨rfl, ?_, ?_, ?_, ?_, ?_⟩
  · rcases spol with _ | p <;> rcases srules with _ | r <;>
      by_cases hl : spols.length > 0 <;>
      simp [readField, finalField, hl]
  · rcases spol with _ | p <;> rcases srules with _ | r <;>
      by_cases hl : spols.length > 0 <;>
      simp [readField, finalField, hl]
  · rcases spol with _ | p <;> rcases srules with _ | r <;>
      by_cases hl : spols.length > 0 <;>
      simp [readField, finalField, hl]
  · intro p hp
    simp only at hp
    subst hp
    rcases srules with _ | r <;>
      by_cases hl : spols.length > 0 <;>
      simp [readField, finalField, hl]
  · intro r hr
    simp only at hr
    subst hr
    rcases spol with _ | p <;>
      by_cases hl : spols.length > 0 <;>
      simp [readField, finalField, hl]

/-- Witness for the amended C2 at a concrete stored identity. -/
theorem read_unpinned_maps_fields_witness :
    (resourceComputeServerGroupV2Read remoteRoundtrip configW dStored).1
        = [RemoteCall.get none "sg-1"]
      ∧ readField (resourceComputeServerGroupV2Read remoteRoundtrip configW dStored).2
          "name" = some (.str "g1") :=
  ⟨(read_unpinned_maps_fields remoteRoundtrip configW dStored sgRoundtrip rfl rfl).1,
    (read_unpinned_maps_fields remoteRoundtrip configW dStored sgRoundtrip rfl
      rfl).2.1⟩

/-- C10: a get result with a non-empty legacy policies list is written
as that list into the policy output field, and no d.Set of the read
handler ever targets the policies output field. -/
theorem read_policies_into_policy_field (remote : Remote) (config : Config)
    (d : ResourceData) (sg : ServerGroup) (hc : remote.clientErr = none)
    (hg : remote.getResp none d.id = .ok sg) :
    (sg.policies ≠ [] →
        (⟨"policy", .strList sg.policies⟩ : SetCall)
          ∈ readOutcomeSets (resourceComputeServerGroupV2Read remote config d).2)
      ∧ ∀ s ∈ readOutcomeSets (resourceComputeServerGroupV2Read remote config d).2,
          s.field ≠ "policies" := by
  unfold resourceComputeServerGroupV2Read
  rw [hc, hg]
  obtain ⟨sid, sname, spols, spol, srules, smem⟩ := sg
  constructor
  · intro hne
    have hl : spols.length > 0 := List.length_pos.mpr hne
    rcases spol with _ | p <;> rcases srules with _ | r <;>
      simp [readOutcomeSets, hl]
  · rcases spol with _ | p <;> rcases srules with _ | r <;>
      by_cases hl : spols.length > 0 <;>
      simp [readOutcomeSets, hl, List.forall_mem_cons]

/-- Witness for C10 at a concrete legacy-policies get result. -/
theorem read_policies_into_policy_field_witness :
    (sgLegacy.policies ≠ [] →
        (⟨"policy", .strList sgLegacy.policies⟩ : SetCall)
          ∈ readOutcomeSets
              (resourceComputeServerGroupV2Read remoteLegacyGet configW dStored).2)
      ∧ ∀ s ∈ readOutcomeSets
            (resourceComputeServerGroupV2Read remoteLegacyGet configW dStored).2,
          s.field ≠ "policies" :=
  read_policies_into_policy_field remoteLegacyGet configW dStored sgLegacy rfl rfl

/-- C1: the claim asserts that creating with name g1, policy
anti-affinity and a rules entry with max_server_per_host 2, followed by
the read-back, yields that round-trip state.  On exactly this input the
handler instead reaches the rules type assertion of source line 120,
which fails on every SDK list value: the create crashes before issuing
any remote call (even against a remote that would faithfully store and
return the entity) and the claimed output state is never produced. -/
theorem create_read_roundtrip_panics :
    resourceComputeServerGroupV2Create remoteRoundtrip configW dRoundtrip
      = ([], CreateOutcome.panicked) := by
  decide

end ServerGroupV2
